import Mathlib

/-!
Verification of the error module of a WebDriver protocol server
(`src/error.rs`): the closed `ErrorStatus` enumeration, the
`WebDriverError` value, its projections `status_code` and `http_status`,
its JSON serialization, and the conversion from JSON parse failures.
-/

namespace WebDriverVerif

/-- The `ErrorStatus` enum from `src/error.rs`, in source order. -/
inductive ErrorStatus where
  | ElementNotSelectable
  | ElementNotVisible
  | InvalidArgument
  | InvalidCookieDomain
  | InvalidElementCoordinates
  | InvalidElementState
  | InvalidSelector
  | InvalidSessionId
  | JavascriptError
  | MoveTargetOutOfBounds
  | NoSuchAlert
  | NoSuchElement
  | NoSuchFrame
  | NoSuchWindow
  | ScriptTimeout
  | SessionNotCreated
  | StaleElementReference
  | Timeout
  | UnableToSetCookie
  | UnexpectedAlertOpen
  | UnknownError
  | UnknownPath
  | UnknownMethod
  | UnsupportedOperation
deriving DecidableEq, Repr, Fintype

/-- All `ErrorStatus` variants, in declaration order. -/
def allErrorStatuses : List ErrorStatus :=
  [.ElementNotSelectable, .ElementNotVisible, .InvalidArgument,
   .InvalidCookieDomain, .InvalidElementCoordinates, .InvalidElementState,
   .InvalidSelector, .InvalidSessionId, .JavascriptError,
   .MoveTargetOutOfBounds, .NoSuchAlert, .NoSuchElement, .NoSuchFrame,
   .NoSuchWindow, .ScriptTimeout, .SessionNotCreated,
   .StaleElementReference, .Timeout, .UnableToSetCookie,
   .UnexpectedAlertOpen, .UnknownError, .UnknownPath, .UnknownMethod,
   .UnsupportedOperation]

/-- The `WebDriverError` struct: a status tag plus a free-text message. -/
structure WebDriverError where
  status : ErrorStatus
  message : String
deriving DecidableEq, Repr

/-- Constructor `WebDriverError::new(status, message)`: stores both fields verbatim
(`message.to_string()` on a `&str` copies the string unchanged). -/
def WebDriverError.new (status : ErrorStatus) (message : String) :
    WebDriverError :=
  { status := status, message := message }

/-- Projection `WebDriverError::status_code`, the protocol status-token table,
transcribed arm by arm from the source `match`. -/
def WebDriverError.status_code (e : WebDriverError) : String :=
  match e.status with
  | .ElementNotSelectable => "element not selectable"
  | .ElementNotVisible => "element not visible"
  | .InvalidArgument => "invalid argument"
  | .InvalidCookieDomain => "invalid cookie domain"
  | .InvalidElementCoordinates => "invalid element coordinates"
  | .InvalidElementState => "invalid element state"
  | .InvalidSelector => "invalid selector"
  | .InvalidSessionId => "invalid session id"
  | .JavascriptError => "javascript error"
  | .MoveTargetOutOfBounds => "move target out of bounds"
  | .NoSuchAlert => "no such alert"
  | .NoSuchElement => "no such element"
  | .NoSuchFrame => "no such frame"
  | .NoSuchWindow => "no such window"
  | .ScriptTimeout => "script timeout"
  | .SessionNotCreated => "session not created"
  | .StaleElementReference => "stale element reference"
  | .Timeout => "timeout"
  | .UnableToSetCookie => "unable to set cookie"
  | .UnexpectedAlertOpen => "unexpected alert open"
  | .UnknownError => "unknown error"
  | .UnknownPath => "unknown command"
  | .UnknownMethod => "unknown command"
  | .UnsupportedOperation => "unsupported operation"

/-- The subset of the hyper `StatusCode` enum that `http_status` uses. -/
inductive StatusCode where
  | BadRequest
  | NotFound
  | MethodNotAllowed
  | RequestTimeout
  | InternalServerError
deriving DecidableEq, Repr

/-- The numeric value of each transport status code, as assigned by the
HTTP status registry that the hyper `StatusCode` enum mirrors. -/
def StatusCode.toU16 : StatusCode → Nat
  | .BadRequest => 400
  | .NotFound => 404
  | .MethodNotAllowed => 405
  | .RequestTimeout => 408
  | .InternalServerError => 500

/-- Projection `WebDriverError::http_status`, transcribed arm by arm from the source
`match`. -/
def WebDriverError.http_status (e : WebDriverError) : StatusCode :=
  match e.status with
  | .ElementNotSelectable => .BadRequest
  | .ElementNotVisible => .BadRequest
  | .InvalidArgument => .BadRequest
  | .InvalidCookieDomain => .BadRequest
  | .InvalidElementCoordinates => .BadRequest
  | .InvalidElementState => .BadRequest
  | .InvalidSelector => .BadRequest
  | .InvalidSessionId => .NotFound
  | .JavascriptError => .InternalServerError
  | .MoveTargetOutOfBounds => .InternalServerError
  | .NoSuchAlert => .BadRequest
  | .NoSuchElement => .NotFound
  | .NoSuchFrame => .BadRequest
  | .NoSuchWindow => .BadRequest
  | .ScriptTimeout => .RequestTimeout
  | .SessionNotCreated => .InternalServerError
  | .StaleElementReference => .BadRequest
  | .Timeout => .RequestTimeout
  | .UnableToSetCookie => .InternalServerError
  | .UnexpectedAlertOpen => .InternalServerError
  | .UnknownError => .InternalServerError
  | .UnknownPath => .NotFound
  | .UnknownMethod => .MethodNotAllowed
  | .UnsupportedOperation => .InternalServerError

/-- The transport-status table as the specification states it (§6 of the
spec and claim C1), written from the grouping in the spec, to be compared with
`http_status` from the source. -/
def specHttpStatusTable : ErrorStatus → Nat
  | .ElementNotSelectable | .ElementNotVisible | .InvalidArgument
  | .InvalidCookieDomain | .InvalidElementCoordinates
  | .InvalidElementState | .InvalidSelector | .NoSuchAlert
  | .NoSuchFrame | .NoSuchWindow | .StaleElementReference => 400
  | .InvalidSessionId | .NoSuchElement | .UnknownPath => 404
  | .JavascriptError | .MoveTargetOutOfBounds | .SessionNotCreated
  | .UnableToSetCookie | .UnexpectedAlertOpen | .UnknownError
  | .UnsupportedOperation => 500
  | .ScriptTimeout | .Timeout => 408
  | .UnknownMethod => 405

/-- The fragment of the rustc_serialize `Json` enum that this module
constructs: `Json::String` and `Json::Object` (a `BTreeMap`, modelled as
a key-sorted association list). -/
inductive Json where
  | str (s : String)
  | obj (members : List (String × Json))

/-- Lexicographic order on strings as character lists: the `Ord` that
`BTreeMap` uses for its `String` keys. -/
def keyLt (a b : List Char) : Bool :=
  match a, b with
  | [], [] => false
  | [], _ :: _ => true
  | _ :: _, [] => false
  | c :: as, d :: bs =>
    if c < d then true else if d < c then false else keyLt as bs

/-- Insertion (`BTreeMap::insert`) on a key-sorted association list: keeps entries
ordered by key and replaces an existing binding. -/
def insertSorted (k : String) (v : Json) :
    List (String × Json) → List (String × Json)
  | [] => [(k, v)]
  | (k', v') :: rest =>
    if keyLt k.data k'.data then (k, v) :: (k', v') :: rest
    else if k = k' then (k, v) :: rest
    else (k', v') :: insertSorted k v rest

/-- Serialization (`impl ToJson for WebDriverError`): a fresh map, insert "status" with
`status_code()`, then insert "message" with the message field. -/
def WebDriverError.to_json (e : WebDriverError) : Json :=
  Json.obj (insertSorted "message" (Json.str e.message)
    (insertSorted "status" (Json.str e.status_code) []))

/-- Lowercase hex digit, as the rustc_serialize `\uXXXX` escapes use. -/
def hexDig (n : Nat) : Char :=
  if n < 10 then Char.ofNat ('0'.toNat + n)
  else Char.ofNat ('a'.toNat + n - 10)

/-- The rustc_serialize `escape_str` treatment of one character: quote and
backslash get two-character escapes, the named control characters get
their short forms, the remaining control bytes and 0x7f get `\u00xx`,
everything else is emitted verbatim. -/
def escChar (c : Char) : List Char :=
  if c = '"' then ['\\', '"']
  else if c = '\\' then ['\\', '\\']
  else if c = '\x08' then ['\\', 'b']
  else if c = '\t' then ['\\', 't']
  else if c = '\n' then ['\\', 'n']
  else if c = '\x0c' then ['\\', 'f']
  else if c = '\r' then ['\\', 'r']
  else if c.toNat < 0x20 ∨ c.toNat = 0x7f then
    ['\\', 'u', '0', '0', hexDig (c.toNat / 16), hexDig (c.toNat % 16)]
  else [c]

/-- Escaping (`escape_str`) over a whole string (character list). -/
def escapeChars : List Char → List Char
  | [] => []
  | c :: cs => escChar c ++ escapeChars cs

/-- A JSON string literal: quote, escaped body, quote. -/
def encStr (s : String) : List Char :=
  '"' :: escapeChars s.data ++ ['"']

mutual

/-- The rustc_serialize compact writer (`Json::to_string`) restricted to the
constructed fragment: string literals and `{"k":v,...}` objects with no
whitespace, members in map (key-sorted) order. -/
def encJson : Json → List Char
  | .str s => encStr s
  | .obj ms => '{' :: encMembers ms ++ ['}']

/-- Comma-separated `"key":value` members of an object. -/
def encMembers : List (String × Json) → List Char
  | [] => []
  | [(k, v)] => encStr k ++ ':' :: encJson v
  | (k, v) :: m :: rest =>
    encStr k ++ ':' :: encJson v ++ ',' :: encMembers (m :: rest)

end

/-- Serialization `WebDriverError::to_json_string`: `self.to_json().to_string()`. -/
def WebDriverError.to_json_string (e : WebDriverError) : String :=
  String.mk (encJson e.to_json)

/-- Numeric value of a hex digit character, both cases accepted. -/
def hexVal (c : Char) : Option Nat :=
  if '0' ≤ c ∧ c ≤ '9' then some (c.toNat - '0'.toNat)
  else if 'a' ≤ c ∧ c ≤ 'f' then some (c.toNat - 'a'.toNat + 10)
  else if 'A' ≤ c ∧ c ≤ 'F' then some (c.toNat - 'A'.toNat + 10)
  else none

/-- The short JSON escape sequences a decoder accepts after a backslash. -/
def unescShort (c : Char) : Option Char :=
  if c = '"' then some '"'
  else if c = '\\' then some '\\'
  else if c = '/' then some '/'
  else if c = 'b' then some '\x08'
  else if c = 'f' then some '\x0c'
  else if c = 'n' then some '\n'
  else if c = 'r' then some '\r'
  else if c = 't' then some '\t'
  else none

/-- JSON string-body decoder: reads characters after an opening quote up
to the closing quote, resolving backslash escapes (including `\uXXXX`),
and returns the decoded characters plus the remaining input. -/
def parseStrBody : List Char → Option (List Char × List Char)
  | [] => none
  | c :: rest =>
    if c = '"' then some ([], rest)
    else if c = '\\' then
      match rest with
      | [] => none
      | e :: rest2 =>
        if e = 'u' then
          match rest2 with
          | h1 :: h2 :: h3 :: h4 :: rest3 =>
            match hexVal h1, hexVal h2, hexVal h3, hexVal h4 with
            | some a, some b, some c2, some d =>
              let n := a * 4096 + b * 256 + c2 * 16 + d
              if n.isValidChar then
                match parseStrBody rest3 with
                | some (s, r) => some (Char.ofNat n :: s, r)
                | none => none
              else none
            | _, _, _, _ => none
          | _ => none
        else
          match unescShort e with
          | some d =>
            match parseStrBody rest2 with
            | some (s, r) => some (d :: s, r)
            | none => none
          | none => none
    else
      match parseStrBody rest with
      | some (s, r) => some (c :: s, r)
      | none => none

/-- Decoder for the members of a JSON object whose values are string
literals: `"key":"value"` pairs separated by commas, terminated by the
closing brace. Fuel bounds the recursion. -/
def parseMembers (fuel : Nat) (l : List Char) :
    Option (List (String × Json) × List Char) :=
  match fuel with
  | 0 => none
  | fuel + 1 =>
    match l with
    | '"' :: rest =>
      match parseStrBody rest with
      | some (k, ':' :: '"' :: rest2) =>
        match parseStrBody rest2 with
        | some (v, ',' :: rest3) =>
          match parseMembers fuel rest3 with
          | some (ms, r) =>
            some ((String.mk k, Json.str (String.mk v)) :: ms, r)
          | none => none
        | some (v, '}' :: rest3) =>
          some ([(String.mk k, Json.str (String.mk v))], rest3)
        | _ => none
      | _ => none
    | _ => none

/-- Top-level decoder for a complete JSON object of string values: the
whole input must be consumed. -/
def decodeJson (l : List Char) : Option Json :=
  match l with
  | '{' :: rest =>
    if rest = ['}'] then some (Json.obj [])
    else
      match parseMembers rest.length rest with
      | some (ms, r) => if r = [] then some (Json.obj ms) else none
      | none => none
  | _ => none

/-- Field lookup in a decoded JSON object. -/
def Json.getField (j : Json) (k : String) : Option Json :=
  match j with
  | .obj ms => List.lookup k ms
  | _ => none

/-- Display (`impl fmt::Display for WebDriverError`): formats the message field. -/
def WebDriverError.displayFmt (e : WebDriverError) : String :=
  e.message

/-- Description (`Error::description`) for `WebDriverError`: `self.status_code()`. -/
def WebDriverError.description (e : WebDriverError) : String :=
  e.status_code

/-- Cause (`Error::cause`) for `WebDriverError`: always `None`. -/
def WebDriverError.cause (_e : WebDriverError) : Option WebDriverError :=
  none

/-- Modelled from the spec: the parse-error codes of the external JSON library
(the `ErrorCode` of the body-decoding collaborator, absent from src/),
each with the description its debug formatting prints. -/
inductive ErrorCode where
  | InvalidSyntax
  | InvalidNumber
  | EOFWhileParsingObject
  | EOFWhileParsingArray
  | EOFWhileParsingValue
  | EOFWhileParsingString
  | KeyMustBeAString
  | ExpectedColon
  | TrailingCharacters
  | InvalidEscape
  | InvalidUnicodeCodePoint
  | UnexpectedEndOfHexEscape
  | NotUtf8
deriving DecidableEq, Repr

/-- Modelled from the spec: the debug description of each parse-error
code. -/
def ErrorCode.debugStr : ErrorCode → String
  | .InvalidSyntax => "invalid syntax"
  | .InvalidNumber => "invalid number"
  | .EOFWhileParsingObject => "EOF while parsing object"
  | .EOFWhileParsingArray => "EOF while parsing array"
  | .EOFWhileParsingValue => "EOF while parsing value"
  | .EOFWhileParsingString => "EOF while parsing string"
  | .KeyMustBeAString => "key must be a string"
  | .ExpectedColon => "expected colon"
  | .TrailingCharacters => "trailing characters"
  | .InvalidEscape => "invalid escape"
  | .InvalidUnicodeCodePoint => "invalid Unicode code point"
  | .UnexpectedEndOfHexEscape => "unexpected end of hex escape"
  | .NotUtf8 => "contents not utf-8"

/-- Modelled from the spec: the `ParserError` type of the external library — a
syntax error with a code and position, or an I/O error carrying its own
diagnostic text. -/
inductive ParserError where
  | SyntaxError (code : ErrorCode) (line col : Nat)
  | IoError (detail : String)
deriving DecidableEq, Repr

/-- Modelled from the spec: `format!("{:?}", err)` on a `ParserError` —
the variant name followed by its payload, hence never empty and a pure
function of the failure value. -/
def ParserError.debugFmt : ParserError → String
  | .SyntaxError code line col =>
    "SyntaxError(" ++ code.debugStr ++ ", " ++ toString line ++ ", "
      ++ toString col ++ ")"
  | .IoError detail => "IoError(" ++ detail ++ ")"

/-- Conversion (`impl From<ParserError> for WebDriverError`): format the failure with
`{:?}` and wrap it as `UnknownError`. -/
def WebDriverError.fromParserError (err : ParserError) : WebDriverError :=
  WebDriverError.new ErrorStatus.UnknownError err.debugFmt

/-- C1: for every `ErrorStatus` variant, `http_status` returns exactly
the transport status fixed by the specification table: 400 for the
eleven bad-request kinds, 404 for `InvalidSessionId`, `NoSuchElement`
and `UnknownPath`, 500 for the seven internal-error kinds, 408 for
`ScriptTimeout` and `Timeout`, and 405 for `UnknownMethod`. -/
theorem http_status_matches_spec_table (e : WebDriverError) :
    e.http_status.toU16 = specHttpStatusTable e.status := by
  cases e with
  | mk s m => cases s <;> rfl

/-- C2: `status_code` is total over the enumeration — every variant maps
to a lowercase, space-separated status token — and returns the canonical
tokens, e.g. "element not selectable" for `ElementNotSelectable` and
"no such element" for `NoSuchElement`. -/
theorem status_code_total_and_canonical :
    (∀ e : WebDriverError,
      (e.status_code.data.all fun c => c.isLower || c == ' ') = true)
    ∧ (∀ m : String,
        (WebDriverError.new .ElementNotSelectable m).status_code
          = "element not selectable")
    ∧ (∀ m : String,
        (WebDriverError.new .NoSuchElement m).status_code
          = "no such element") := by
  refine ⟨?_, fun m => rfl, fun m => rfl⟩
  intro e
  cases e with
  | mk s m =>
    cases s <;> simp only [WebDriverError.status_code] <;> decide

/-- C3: `UnknownPath` and `UnknownMethod` collide on the status string
"unknown command" while `http_status` distinguishes them: 404 Not Found
for `UnknownPath` and 405 Method Not Allowed for `UnknownMethod`. -/
theorem unknown_path_method_collision (m : String) :
    (WebDriverError.new .UnknownPath m).status_code = "unknown command"
    ∧ (WebDriverError.new .UnknownMethod m).status_code = "unknown command"
    ∧ (WebDriverError.new .UnknownPath m).http_status = StatusCode.NotFound
    ∧ (WebDriverError.new .UnknownMethod m).http_status
        = StatusCode.MethodNotAllowed
    ∧ (WebDriverError.new .UnknownPath m).http_status.toU16 = 404
    ∧ (WebDriverError.new .UnknownMethod m).http_status.toU16 = 405
    ∧ (WebDriverError.new .UnknownPath m).http_status
        ≠ (WebDriverError.new .UnknownMethod m).http_status :=
  ⟨rfl, rfl, rfl, rfl, rfl, rfl, fun h => StatusCode.noConfusion h⟩

/-- C6: converting a parse failure always yields an error of kind
`UnknownError` whose message is the debug representation of the failure,
which is non-empty; determinism holds because the conversion and the
debug formatting are pure functions of the failure value. -/
theorem from_parser_error_policy (err : ParserError) :
    (WebDriverError.fromParserError err).status = ErrorStatus.UnknownError
    ∧ (WebDriverError.fromParserError err).message = err.debugFmt
    ∧ 0 < err.debugFmt.length := by
  refine ⟨rfl, rfl, ?_⟩
  cases err with
  | SyntaxError code line col =>
    show 0 < ("SyntaxError(" ++ code.debugStr ++ ", " ++ toString line
      ++ ", " ++ toString col ++ ")").length
    simp only [String.length_append]
    have h12 : "SyntaxError(".length = 12 := rfl
    omega
  | IoError detail =>
    show 0 < ("IoError(" ++ detail ++ ")").length
    simp only [String.length_append]
    have h8 : "IoError(".length = 8 := rfl
    omega

/-- C6 witness at a concrete parse failure. -/
theorem from_parser_error_policy_check :
    (WebDriverError.fromParserError
        (ParserError.SyntaxError .InvalidSyntax 3 7)).status
      = ErrorStatus.UnknownError
    ∧ (WebDriverError.fromParserError
        (ParserError.SyntaxError .InvalidSyntax 3 7)).message
      = "SyntaxError(invalid syntax, 3, 7)" :=
  ⟨(from_parser_error_policy (ParserError.SyntaxError .InvalidSyntax 3 7)).1,
    by decide⟩

/-- C7 counterexample: the `ErrorStatus` enumeration does not have 23
variants — its cardinality is 24. -/
theorem error_status_card_ne_23 : Fintype.card ErrorStatus ≠ 23 := by
  decide

/-- C7 amended: the `ErrorStatus` enumeration is closed and has exactly
24 variants, those listed in the source in order. -/
theorem error_status_closed_card_24 :
    Fintype.card ErrorStatus = 24
    ∧ allErrorStatuses.length = 24
    ∧ allErrorStatuses.Nodup
    ∧ ∀ s : ErrorStatus, s ∈ allErrorStatuses := by
  refine ⟨by decide, by decide, by decide, by decide⟩

/-- C8: the constructor stores the given kind and message verbatim, with
no validation, for every kind and every message string. -/
theorem new_stores_fields_verbatim (s : ErrorStatus) (m : String) :
    (WebDriverError.new s m).status = s
    ∧ (WebDriverError.new s m).message = m :=
  ⟨rfl, rfl⟩

/-- C9: the diagnostic description equals `status_code()` for every
error value — the status token, not the free-text message, as the
concrete `Timeout` instance shows. -/
theorem description_is_status_code :
    (∀ e : WebDriverError, e.description = e.status_code)
    ∧ (WebDriverError.new .Timeout "boom").description = "timeout"
    ∧ (WebDriverError.new .Timeout "boom").description ≠ "boom" :=
  ⟨fun _ => rfl, rfl, by decide⟩

/-- C10: Display formatting yields exactly the message field, and the
cause is always `None`; on the concrete `Timeout` instance Display gives
the message while the description gives the status token. -/
theorem display_is_message_and_cause_none :
    (∀ e : WebDriverError,
      e.displayFmt = e.message ∧ e.cause = none)
    ∧ (WebDriverError.new .Timeout "boom").displayFmt = "boom"
    ∧ (WebDriverError.new .Timeout "boom").description = "timeout" :=
  ⟨fun _ => ⟨rfl, rfl⟩, rfl, rfl⟩

theorem stringMk_data (s : String) : String.mk s.data = s := rfl

theorem hexVal_hexDig : ∀ k, k < 16 → hexVal (hexDig k) = some k := by
  decide

theorem parseStrBody_quote (t : List Char) :
    parseStrBody ('"' :: t) = some ([], t) := by
  rw [parseStrBody.eq_def]
  simp

theorem parseStrBody_other (c : Char) (t : List Char)
    (h1 : c ≠ '"') (h2 : c ≠ '\\') :
    parseStrBody (c :: t)
      = (parseStrBody t).map (fun p => (c :: p.1, p.2)) := by
  rw [parseStrBody.eq_def]
  simp only [h1, h2, if_false, ite_false, reduceIte]
  cases parseStrBody t with
  | none => rfl
  | some p =>
    obtain ⟨s, r⟩ := p
    rfl

theorem parseStrBody_short (e d : Char) (t : List Char)
    (he : e ≠ 'u') (hd : unescShort e = some d) :
    parseStrBody ('\\' :: e :: t)
      = (parseStrBody t).map (fun p => (d :: p.1, p.2)) := by
  rw [parseStrBody.eq_def]
  simp only [he, hd, show ¬(('\\' : Char) = '"') from by decide,
    eq_self_iff_true, if_false, ite_false, if_true, ite_true, reduceIte]
  cases parseStrBody t with
  | none => rfl
  | some p =>
    obtain ⟨s, r⟩ := p
    rfl

theorem parseStrBody_unicode (h1 h2 h3 h4 : Char) (a b c2 d n : Nat)
    (t : List Char)
    (e1 : hexVal h1 = some a) (e2 : hexVal h2 = some b)
    (e3 : hexVal h3 = some c2) (e4 : hexVal h4 = some d)
    (hn : a * 4096 + b * 256 + c2 * 16 + d = n)
    (hv : n.isValidChar) :
    parseStrBody ('\\' :: 'u' :: h1 :: h2 :: h3 :: h4 :: t)
      = (parseStrBody t).map (fun p => (Char.ofNat n :: p.1, p.2)) := by
  subst hn
  rw [parseStrBody.eq_def]
  simp only [e1, e2, e3, e4, hv, show ¬(('\\' : Char) = '"') from by decide,
    eq_self_iff_true, if_false, ite_false, if_true, ite_true, reduceIte]
  cases parseStrBody t with
  | none => rfl
  | some p =>
    obtain ⟨s, r⟩ := p
    rfl

theorem parseStrBody_escChar (c : Char) (t : List Char) :
    parseStrBody (escChar c ++ t)
      = (parseStrBody t).map (fun p => (c :: p.1, p.2)) := by
  by_cases hq : c = '"'
  · subst hq
    exact parseStrBody_short '"' '"' t (by decide) (by decide)
  by_cases hbs : c = '\\'
  · subst hbs
    exact parseStrBody_short '\\' '\\' t (by decide) (by decide)
  by_cases h08 : c = '\x08'
  · subst h08
    exact parseStrBody_short 'b' '\x08' t (by decide) (by decide)
  by_cases h09 : c = '\t'
  · subst h09
    exact parseStrBody_short 't' '\t' t (by decide) (by decide)
  by_cases h0a : c = '\n'
  · subst h0a
    exact parseStrBody_short 'n' '\n' t (by decide) (by decide)
  by_cases h0c : c = '\x0c'
  · subst h0c
    exact parseStrBody_short 'f' '\x0c' t (by decide) (by decide)
  by_cases h0d : c = '\r'
  · subst h0d
    exact parseStrBody_short 'r' '\r' t (by decide) (by decide)
  by_cases hctl : c.toNat < 0x20 ∨ c.toNat = 0x7f
  · have hesc : escChar c = ['\\', 'u', '0', '0',
        hexDig (c.toNat / 16), hexDig (c.toNat % 16)] := by
      simp [escChar, hq, hbs, h08, h09, h0a, h0c, h0d, hctl]
    rw [hesc]
    have hdiv : c.toNat / 16 < 16 := by omega
    have hmod : c.toNat % 16 < 16 := by omega
    have := parseStrBody_unicode '0' '0'
      (hexDig (c.toNat / 16)) (hexDig (c.toNat % 16))
      0 0 (c.toNat / 16) (c.toNat % 16) c.toNat t
      (by decide) (by decide)
      (hexVal_hexDig _ hdiv) (hexVal_hexDig _ hmod)
      (by omega) (Or.inl (by omega))
    simpa [Char.ofNat_toNat] using this
  · have hesc : escChar c = [c] := by
      simp [escChar, hq, hbs, h08, h09, h0a, h0c, h0d, hctl]
    rw [hesc]
    exact parseStrBody_other c t hq hbs

theorem parseStrBody_escape (s t : List Char) :
    parseStrBody (escapeChars s ++ '"' :: t) = some (s, t) := by
  induction s with
  | nil => simpa [escapeChars] using parseStrBody_quote t
  | cons c cs ih =>
    simp [escapeChars, List.append_assoc, parseStrBody_escChar, ih]

theorem parseMembers_single (fuel : Nat) (k v : String) (t : List Char) :
    parseMembers (fuel + 1)
      ('"' :: (escapeChars k.data ++ '"' :: ':' :: '"' ::
        (escapeChars v.data ++ '"' :: '}' :: t)))
      = some ([(k, Json.str v)], t) := by
  simp [parseMembers, parseStrBody_escape, stringMk_data]

theorem parseMembers_cons (fuel : Nat) (k v : String) (t : List Char)
    (ms : List (String × Json)) (r : List Char)
    (h : parseMembers fuel t = some (ms, r)) :
    parseMembers (fuel + 1)
      ('"' :: (escapeChars k.data ++ '"' :: ':' :: '"' ::
        (escapeChars v.data ++ '"' :: ',' :: t)))
      = some ((k, Json.str v) :: ms, r) := by
  simp [parseMembers, parseStrBody_escape, h, stringMk_data]

theorem to_json_eq (e : WebDriverError) :
    e.to_json = Json.obj [("message", Json.str e.message),
      ("status", Json.str e.status_code)] := rfl

theorem decode_to_json_string (e : WebDriverError) :
    decodeJson e.to_json_string.data
      = some (Json.obj [("message", Json.str e.message),
          ("status", Json.str e.status_code)]) := by
  have henc : encJson (Json.obj [("message", Json.str e.message),
      ("status", Json.str e.status_code)])
      = '{' :: '"' :: (escapeChars "message".data ++ '"' :: ':' :: '"' ::
          (escapeChars e.message.data ++ '"' :: ',' :: ('"' ::
            (escapeChars "status".data ++ '"' :: ':' :: '"' ::
              (escapeChars e.status_code.data ++ '"' :: '}' :: []))))) := by
    simp [encJson, encMembers, encStr]
  rw [show e.to_json_string.data = encJson e.to_json from rfl,
    to_json_eq e, henc]
  obtain ⟨f, hf⟩ : ∃ f,
      ('"' :: (escapeChars "message".data ++ '"' :: ':' :: '"' ::
        (escapeChars e.message.data ++ '"' :: ',' :: ('"' ::
          (escapeChars "status".data ++ '"' :: ':' :: '"' ::
            (escapeChars e.status_code.data
              ++ '"' :: '}' :: [])))))).length = f + 1 + 1 :=
    ⟨(escapeChars "message".data).length
      + (escapeChars e.message.data).length
      + (escapeChars "status".data).length
      + (escapeChars e.status_code.data).length + 10,
     by simp [List.length_append]; omega⟩
  have hpm : parseMembers (f + 1 + 1)
      ('"' :: (escapeChars "message".data ++ '"' :: ':' :: '"' ::
        (escapeChars e.message.data ++ '"' :: ',' :: ('"' ::
          (escapeChars "status".data ++ '"' :: ':' :: '"' ::
            (escapeChars e.status_code.data ++ '"' :: '}' :: []))))))
      = some ([("message", Json.str e.message),
          ("status", Json.str e.status_code)], []) :=
    parseMembers_cons (f + 1) "message" e.message _ _ _
      (parseMembers_single f "status" e.status_code [])
  simp [decodeJson, hf, hpm]

/-- C4: serialization round-trips — for every kind and every message
string (empty, quotes, backslashes and control characters included),
decoding the text of `to_json_string` yields an object whose "status"
field is `status_code()` and whose "message" field is the original
message verbatim. -/
theorem to_json_string_roundtrip (s : ErrorStatus) (m : String) :
    ∃ j, decodeJson ((WebDriverError.new s m).to_json_string).data = some j
      ∧ j.getField "status"
          = some (Json.str ((WebDriverError.new s m).status_code))
      ∧ j.getField "message" = some (Json.str m) := by
  exact ⟨_, decode_to_json_string (WebDriverError.new s m), rfl, rfl⟩

/-- C5: the wire body is an object with exactly the two keys "message"
and "status" — "status" holds `status_code()` and "message" holds the
message verbatim (an empty message stays an empty string) — and
serialization is a total function. -/
theorem wire_body_exactly_two_keys (e : WebDriverError) :
    e.to_json = Json.obj [("message", Json.str e.message),
      ("status", Json.str e.status_code)]
    ∧ e.to_json.getField "status" = some (Json.str e.status_code)
    ∧ e.to_json.getField "message" = some (Json.str e.message) := by
  refine ⟨to_json_eq e, ?_, ?_⟩ <;> rw [to_json_eq e] <;> rfl

end WebDriverVerif
